import Mathlib

/-!
# Connection lifecycle of Trojan-Qt5 (`src/connection.cpp`)

A shallow embedding of the `Connection` class: its member state, the calls it makes on its
collaborators (recorded, in program order, in a trace) and the signals it emits.

* Member state is the structure `Connection`; a run is an `Exec`: the members plus the trace of
  everything the object has done so far.
* What the collaborators answer during one call (clock, allocator, port validator, configuration
  store) is an `Env`; what is fixed for the process (platform paths, `QHostAddress` parsing, the
  latency sentinels of `TQProfile`) is a `Platform`.
* Qt delivers `lookupHost` results and `lagTestFinished` (queued connection) from the event loop,
  never from inside the call that requested them, so they are separate calls of the object:
  `onServerAddressLookedUp` and `onLatencyAvailable`.
-/

namespace TrojanQt5

/-- Address held by a pointer member: identifies one worker object. -/
abbrev Handle := Nat

/-- Modelled from the spec: the declaration of `TQProfile` (tqprofile.h) is not among the sources.
The fields are the ones the data model of the spec lists, under the names connection.cpp uses. -/
structure TQProfile where
  name : String
  serverAddress : String
  serverPort : Nat
  password : String
  localAddress : String
  localPort : Nat
  localHttpPort : Nat
  dualMode : Bool
  latency : Int
  lastTime : Nat
  deriving DecidableEq, Repr

/-- Value of a `QHostAddress`: `none` is the null address (`isNull()`), `some s` a literal
numeric address. -/
structure QHostAddress where
  ip : Option String
  deriving DecidableEq, Repr

/-- The `isNull()` query of `QHostAddress`. -/
def QHostAddress.isNull (a : QHostAddress) : Bool := a.ip.isNone

/-- The error codes of `QHostInfo::error()`. -/
inductive HostInfoError
  | NoError
  | HostNotFound
  | UnknownError
  deriving DecidableEq, Repr

/-- Result of a hostname lookup, as handed to the slot `onServerAddressLookedUp`. -/
structure QHostInfo where
  error : HostInfoError
  addresses : List QHostAddress
  deriving DecidableEq, Repr

/-- Modelled from the spec: the class `ConfigHelper` (confighelper.h) is not among the sources.
An instance holds the two user preferences the spec says the Configuration Store answers, read
when the instance is constructed. -/
structure ConfigHelper where
  enablePACMode : Bool
  autoSetSystemProxy : Bool
  deriving DecidableEq, Repr

/-- The `isEnablePACMode()` query. -/
def ConfigHelper.isEnablePACMode (conf : ConfigHelper) : Bool := conf.enablePACMode

/-- The `isAutoSetSystemProxy()` query. -/
def ConfigHelper.isAutoSetSystemProxy (conf : ConfigHelper) : Bool := conf.autoSetSystemProxy

/-- What is fixed for the whole process: the build target, the directories Qt reports, the
parser behind `QHostAddress(QString)` and the two sentinels declared in tqprofile.h. -/
structure Platform where
  isWin : Bool
  applicationDirPath : String
  homePath : String
  absolutePath : String → String
  hostAddress : String → QHostAddress
  LATENCY_UNKNOWN : Int
  LATENCY_ERROR : Int

/-- What the collaborators answer during one call of the object. -/
structure Env where
  currentDateTime : Nat
  newPrivoxyThread : Handle
  configHelper : String → ConfigHelper
  isInUse : Nat → Bool

/-- One recorded action of the object, in program order. -/
inductive Effect
  | lookupHost (name : String)
  | startLagTest (addr : QHostAddress) (port : Nat)
  | newPrivoxyThread (h : Handle)
  | newPACServer
  | newConfigHelper (configFile : String)
  | connectionToJson (p : TQProfile)
  | generatePrivoxyConf (p : TQProfile)
  | serviceLoadConfig (h : Handle) (file : String)
  | isInUse (port : Nat)
  | qCritical (msg : String)
  | loggerError (msg : String)
  | setRunning (b : Bool)
  | serviceStart (h : Handle)
  | serviceStop (h : Handle)
  | privoxyStart (h : Handle)
  | privoxyStop (h : Handle)
  | pacModify (p : TQProfile)
  | stateChanged (b : Bool)
  | startFailed
  | latencyAvailable (latency : Int)
  | setSystemProxy (p : TQProfile) (mode : Nat)
  deriving DecidableEq, Repr

/-- The members of a `Connection` object. -/
structure Connection where
  profile : TQProfile
  running : Bool
  service : Handle
  privoxy : Handle
  configFile : String
  deriving DecidableEq, Repr

/-- A run: the members, and everything the object has done so far. -/
structure Exec where
  conn : Connection
  trace : List Effect
  deriving DecidableEq, Repr

/-- Append one action to the trace. -/
def Exec.record (x : Exec) (e : Effect) : Exec :=
  { x with trace := x.trace ++ [e] }

/-- Assign the member `running`, recording the write. -/
def Exec.setRunning (x : Exec) (b : Bool) : Exec :=
  { conn := { x.conn with running := b }, trace := x.trace ++ [Effect.setRunning b] }

/-- The path of config.ini (constructor) for the platform. -/
def Platform.configIni (plat : Platform) : String :=
  if plat.isWin then plat.applicationDirPath ++ "/config.ini"
  else plat.absolutePath (plat.homePath ++ "/.config/trojan-qt5") ++ "/config.ini"

/-- The path of config.json (`start`) for the platform. -/
def Platform.configJson (plat : Platform) : String :=
  if plat.isWin then plat.applicationDirPath ++ "/config.json"
  else plat.absolutePath (plat.homePath ++ "/.config/trojan-qt5") ++ "/config.json"

namespace Connection

/-- Constructor `Connection(const TQProfile &, QObject *)`, through the delegated
`Connection(QObject *)`: `running(false)`, `service(new ServiceThread(this))`, the path of
config.ini, then the profile. The member `privoxy` has no initialiser in the constructor:
`privoxy0` is whatever it holds. -/
def create (plat : Platform) (service privoxy0 : Handle) (p : TQProfile) : Connection :=
  { profile := p, running := false, service := service, privoxy := privoxy0,
    configFile := plat.configIni }

/-- Accessor `getProfile`. -/
def getProfile (c : Connection) : TQProfile := c.profile

/-- Accessor `getName`. -/
def getName (c : Connection) : String := c.profile.name

/-- Accessor `isRunning`. -/
def isRunning (c : Connection) : Bool := c.running

/-- `Connection::isValid`. -/
def isValid (c : Connection) : Bool :=
  if c.profile.serverAddress.isEmpty || c.profile.password.isEmpty
      || c.profile.localAddress.isEmpty then
    false
  else
    true

/-- `Connection::testAddressLatency`: a tester for `addr` and the server port of the profile is
constructed, wired to `onLatencyAvailable` (queued) and started. -/
def testAddressLatency (addr : QHostAddress) (x : Exec) : Exec :=
  x.record (Effect.startLagTest addr x.conn.profile.serverPort)

/-- `Connection::latencyTest`. -/
def latencyTest (plat : Platform) (x : Exec) : Exec :=
  let serverAddr := plat.hostAddress x.conn.profile.serverAddress
  if serverAddr.isNull then
    x.record (Effect.lookupHost x.conn.profile.serverAddress)
  else
    testAddressLatency serverAddr x

/-- `Connection::onLatencyAvailable`. -/
def onLatencyAvailable (latency : Int) (x : Exec) : Exec :=
  let x : Exec :=
    { x with conn := { x.conn with profile := { x.conn.profile with latency := latency } } }
  x.record (Effect.latencyAvailable latency)

/-- `Connection::onServerAddressLookedUp`. `QList::first()` on an empty list is undefined:
`none`. -/
def onServerAddressLookedUp (plat : Platform) (host : QHostInfo) (x : Exec) : Option Exec :=
  if host.error = HostInfoError.NoError then
    match host.addresses with
    | a :: _ => some (testAddressLatency a x)
    | [] => none
  else
    some (onLatencyAvailable plat.LATENCY_ERROR x)

/-- The text both log calls of `start` print on a port conflict. -/
def portConflictMessage (p : TQProfile) : String :=
  "There is some thing listening on port " ++ toString p.localPort ++ " or "
    ++ toString p.localHttpPort

/-- `Connection::start`. -/
def start (plat : Platform) (env : Env) (x : Exec) : Exec :=
  -- profile.lastTime = QDateTime::currentDateTime();
  let x : Exec :=
    { x with conn := { x.conn with
        profile := { x.conn.profile with lastTime := env.currentDateTime } } }
  -- perform a latency test if the latency is unknown
  let x := if x.conn.profile.latency = plat.LATENCY_UNKNOWN then latencyTest plat x else x
  -- privoxy = new PrivoxyThread();
  let x : Exec :=
    { conn := { x.conn with privoxy := env.newPrivoxyThread },
      trace := x.trace ++ [Effect.newPrivoxyThread env.newPrivoxyThread] }
  -- PACServer *pac = new PACServer();
  let x := x.record Effect.newPACServer
  -- ConfigHelper *conf = new ConfigHelper(configFile);
  let conf := env.configHelper x.conn.configFile
  let x := x.record (Effect.newConfigHelper x.conn.configFile)
  let x := x.record (Effect.connectionToJson x.conn.profile)
  let x := x.record (Effect.generatePrivoxyConf x.conn.profile)
  -- service->config().load(file.toStdString());
  let x := x.record (Effect.serviceLoadConfig x.conn.service plat.configJson)
  -- pv->isInUse(profile.localPort) || pv->isInUse(profile.localHttpPort)
  let inUse1 := env.isInUse x.conn.profile.localPort
  let x := x.record (Effect.isInUse x.conn.profile.localPort)
  let inUse2 := if inUse1 then true else env.isInUse x.conn.profile.localHttpPort
  let x := if inUse1 then x else x.record (Effect.isInUse x.conn.profile.localHttpPort)
  if inUse2 then
    let x := x.record (Effect.qCritical (portConflictMessage x.conn.profile))
    let x := x.record (Effect.loggerError (portConflictMessage x.conn.profile))
    x.record (Effect.stateChanged false)
  else
    let x := x.setRunning true
    let x := x.record (Effect.serviceStart x.conn.service)
    let x := if x.conn.profile.dualMode then x.record (Effect.privoxyStart x.conn.privoxy) else x
    let x := if conf.isEnablePACMode then x.record (Effect.pacModify x.conn.profile) else x
    let x := x.record (Effect.stateChanged x.conn.running)
    if conf.isAutoSetSystemProxy then
      if conf.isEnablePACMode then
        x.record (Effect.setSystemProxy x.conn.profile 2)
      else
        x.record (Effect.setSystemProxy x.conn.profile 1)
    else
      x

/-- `Connection::stop`. -/
def stop (env : Env) (x : Exec) : Exec :=
  let conf := env.configHelper x.conn.configFile
  let x := x.record (Effect.newConfigHelper x.conn.configFile)
  if x.conn.running then
    let x := x.setRunning false
    let x := x.record (Effect.serviceStop x.conn.service)
    let x := if x.conn.profile.dualMode then x.record (Effect.privoxyStop x.conn.privoxy) else x
    let x := x.record (Effect.stateChanged x.conn.running)
    if conf.isAutoSetSystemProxy then
      x.record (Effect.setSystemProxy x.conn.profile 0)
    else
      x
  else
    x

/-- `Connection::onStartFailed`. -/
def onStartFailed (env : Env) (x : Exec) : Exec :=
  let conf := env.configHelper x.conn.configFile
  let x := x.record (Effect.newConfigHelper x.conn.configFile)
  let x := x.setRunning false
  let x := x.record (Effect.stateChanged x.conn.running)
  let x := x.record Effect.startFailed
  if conf.isAutoSetSystemProxy then
    x.record (Effect.setSystemProxy x.conn.profile 0)
  else
    x

end Connection

/-! ## Observations on traces -/

/-- The three signals of the class: `stateChanged`, `startFailed`, `latencyAvailable`. -/
def Effect.isSignal : Effect → Bool
  | Effect.stateChanged _ => true
  | Effect.startFailed => true
  | Effect.latencyAvailable _ => true
  | _ => false

/-- A `start()` call on the Tunnel Worker or on the Local Forwarding Worker. -/
def Effect.isWorkerStart : Effect → Bool
  | Effect.serviceStart _ => true
  | Effect.privoxyStart _ => true
  | _ => false

/-- A `stop()` call on the Tunnel Worker or on the Local Forwarding Worker. -/
def Effect.isWorkerStop : Effect → Bool
  | Effect.serviceStop _ => true
  | Effect.privoxyStop _ => true
  | _ => false

/-- A regeneration of the PAC file. -/
def Effect.isPacModify : Effect → Bool
  | Effect.pacModify _ => true
  | _ => false

/-- A call of `SystemProxyHelper::setSystemProxy`. -/
def Effect.isProxyApply : Effect → Bool
  | Effect.setSystemProxy _ _ => true
  | _ => false

/-- A write of the member `running`. -/
def Effect.isSetRunning : Effect → Bool
  | Effect.setRunning _ => true
  | _ => false

/-- The signals emitted along a trace, in order. -/
def signals (t : List Effect) : List Effect := t.filter Effect.isSignal

/-- How one action changes "the Tunnel Worker `svc` is started". -/
def tunnelStep (svc : Handle) (started : Bool) : Effect → Bool
  | Effect.serviceStart h => if h = svc then true else started
  | Effect.serviceStop h => if h = svc then false else started
  | _ => started

/-- Whether, along a trace, the Tunnel Worker `svc` has been started and not since stopped. -/
def tunnelStarted (svc : Handle) (t : List Effect) : Bool :=
  t.foldl (tunnelStep svc) false

/-- How one action changes the list of started Local Forwarding Workers. -/
def privoxyStep (live : List Handle) : Effect → List Handle
  | Effect.privoxyStart h => if h ∈ live then live else live ++ [h]
  | Effect.privoxyStop h => live.filter (fun k => decide (k ≠ h))
  | _ => live

/-- The Local Forwarding Workers that, along a trace, have been started and not since stopped. -/
def privoxyStarted (t : List Effect) : List Handle :=
  t.foldl privoxyStep []

/-! ## The two halves of `start` -/

/-- The actions of `latencyTest` (lines 77-82) for a profile: one lookup for a name, one
measurement for a literal address. -/
def latencyTestFx (plat : Platform) (p : TQProfile) : List Effect :=
  if (plat.hostAddress p.serverAddress).isNull then [Effect.lookupHost p.serverAddress]
  else [Effect.startLagTest (plat.hostAddress p.serverAddress) p.serverPort]

/-- The actions of `start` before the port check (lines 87-112), for the members `c` at
entry. -/
def startPrepareFx (plat : Platform) (env : Env) (c : Connection) : List Effect :=
  (if c.profile.latency = plat.LATENCY_UNKNOWN then
      latencyTestFx plat { c.profile with lastTime := env.currentDateTime }
    else [])
  ++ [Effect.newPrivoxyThread env.newPrivoxyThread, Effect.newPACServer,
      Effect.newConfigHelper c.configFile,
      Effect.connectionToJson { c.profile with lastTime := env.currentDateTime },
      Effect.generatePrivoxyConf { c.profile with lastTime := env.currentDateTime },
      Effect.serviceLoadConfig c.service plat.configJson]

/-- The actions of `start` up to and including the port check (lines 87-116): the second port
is queried only when the first is free. -/
def startCheckFx (plat : Platform) (env : Env) (c : Connection) : List Effect :=
  startPrepareFx plat env c
  ++ [Effect.isInUse c.profile.localPort]
  ++ (if env.isInUse c.profile.localPort then []
      else [Effect.isInUse c.profile.localHttpPort])

/-- The members when `start` reaches the port check (lines 87 and 94 have run). -/
def startChecked (env : Env) (c : Connection) : Connection :=
  { c with profile := { c.profile with lastTime := env.currentDateTime },
           privoxy := env.newPrivoxyThread }

/-! ## Sequences of calls -/

/-- One call made on the object from outside: by an observer, by the Tunnel Worker
(`startFailed` is wired to `onStartFailed` in the constructor) or by the event loop. -/
inductive Call
  | start (env : Env)
  | stop (env : Env)
  | onStartFailed (env : Env)
  | latencyTest
  | onServerAddressLookedUp (host : QHostInfo)
  | onLatencyAvailable (latency : Int)

/-- Perform one call. -/
def step (plat : Platform) : Call → Exec → Option Exec
  | Call.start env, x => some (Connection.start plat env x)
  | Call.stop env, x => some (Connection.stop env x)
  | Call.onStartFailed env, x => some (Connection.onStartFailed env x)
  | Call.latencyTest, x => some (Connection.latencyTest plat x)
  | Call.onServerAddressLookedUp host, x => Connection.onServerAddressLookedUp plat host x
  | Call.onLatencyAvailable latency, x => some (Connection.onLatencyAvailable latency x)

/-- Perform a sequence of calls, first call first. -/
def run (plat : Platform) : List Call → Exec → Option Exec
  | [], x => some x
  | c :: cs, x => (step plat c x).bind (run plat cs)

/-- The running invariant: a set `running` flag means the last call on the Tunnel Worker was
`start()`. -/
def RunningInv (x : Exec) : Prop :=
  x.conn.running = true → tunnelStarted x.conn.service x.trace = true

/-! ## Sample data -/

/-- A profile with a literal server address, as in the scenario of the spec. -/
def sampleProfile : TQProfile :=
  { name := "sample", serverAddress := "10.0.0.1", serverPort := 443, password := "secret",
    localAddress := "127.0.0.1", localPort := 1080, localHttpPort := 8118, dualMode := false,
    latency := 25, lastTime := 0 }

/-- The same profile with dual mode on. -/
def dualProfile : TQProfile := { sampleProfile with dualMode := true }

/-- A platform on which "10.0.0.1" is the one literal address, with sentinels -3 and -2. -/
def samplePlatform : Platform :=
  { isWin := false, applicationDirPath := "/opt/trojan-qt5", homePath := "/home/user",
    absolutePath := fun d => d,
    hostAddress := fun s =>
      if s = "10.0.0.1" then ⟨some s⟩ else ⟨none⟩,
    LATENCY_UNKNOWN := -3, LATENCY_ERROR := -2 }

/-- A configuration store answering the same two preferences for every file. -/
def sampleConf (pac auto : Bool) : String → ConfigHelper :=
  fun _ => { enablePACMode := pac, autoSetSystemProxy := auto }

/-- Both local ports free. -/
def envFree (now : Nat) (h : Handle) (pac auto : Bool) : Env :=
  { currentDateTime := now, newPrivoxyThread := h, configHelper := sampleConf pac auto,
    isInUse := fun _ => false }

/-- The listed ports are bound. -/
def envBusy (now : Nat) (h : Handle) (pac auto : Bool) (busy : List Nat) : Env :=
  { currentDateTime := now, newPrivoxyThread := h, configHelper := sampleConf pac auto,
    isInUse := fun p => decide (p ∈ busy) }

/-- A freshly constructed connection for the sample profile. -/
def sampleConn : Connection := Connection.create samplePlatform 1 0 sampleProfile

/-- A freshly constructed connection for the dual-mode profile. -/
def dualConn : Connection := Connection.create samplePlatform 1 0 dualProfile

/-- A successful `start`, a `start` that finds both ports bound, then `stop`. -/
def staleCalls : List Call :=
  [Call.start (envFree 5 7 false false), Call.start (envBusy 6 8 false false [1080, 8118]),
    Call.stop (envFree 7 9 false false)]

/-! ## Framing: a call extends the trace it is given -/

/-- A stopped connection has nothing to stop: `stop` only constructs its `ConfigHelper`. -/
theorem stop_of_not_running (env : Env) (x : Exec) (h : x.conn.running = false) :
    Connection.stop env x
      = ⟨x.conn, x.trace ++ [Effect.newConfigHelper x.conn.configFile]⟩ := by
  simp [Connection.stop, Exec.record, h]

/-- What `stop` does on a running connection. -/
theorem stop_of_running (env : Env) (x : Exec) (h : x.conn.running = true) :
    Connection.stop env x
      = ⟨{ x.conn with running := false },
          x.trace ++ ([Effect.newConfigHelper x.conn.configFile, Effect.setRunning false,
              Effect.serviceStop x.conn.service]
            ++ (if x.conn.profile.dualMode then [Effect.privoxyStop x.conn.privoxy] else [])
            ++ [Effect.stateChanged false]
            ++ (if (env.configHelper x.conn.configFile).autoSetSystemProxy then
                  [Effect.setSystemProxy x.conn.profile 0] else []))⟩ := by
  cases hd : x.conn.profile.dualMode <;>
  cases ha : (env.configHelper x.conn.configFile).autoSetSystemProxy <;>
  simp [Connection.stop, Exec.record, Exec.setRunning, ConfigHelper.isAutoSetSystemProxy,
    h, hd, ha]

/-- What `onStartFailed` does. -/
theorem onStartFailed_eq (env : Env) (x : Exec) :
    Connection.onStartFailed env x
      = ⟨{ x.conn with running := false },
          x.trace ++ ([Effect.newConfigHelper x.conn.configFile, Effect.setRunning false,
              Effect.stateChanged false, Effect.startFailed]
            ++ (if (env.configHelper x.conn.configFile).autoSetSystemProxy then
                  [Effect.setSystemProxy x.conn.profile 0] else []))⟩ := by
  cases ha : (env.configHelper x.conn.configFile).autoSetSystemProxy <;>
  simp [Connection.onStartFailed, Exec.record, Exec.setRunning,
    ConfigHelper.isAutoSetSystemProxy, ha]

/-- What `latencyTest` does. -/
theorem latencyTest_eq (plat : Platform) (x : Exec) :
    Connection.latencyTest plat x = ⟨x.conn, x.trace ++ latencyTestFx plat x.conn.profile⟩ := by
  cases hn : (plat.hostAddress x.conn.profile.serverAddress).isNull <;>
  simp [Connection.latencyTest, Connection.testAddressLatency, Exec.record, latencyTestFx, hn]

/-- What `start` does when a port is in use. -/
theorem start_of_conflict (plat : Platform) (env : Env) (x : Exec)
    (h : env.isInUse x.conn.profile.localPort = true
      ∨ env.isInUse x.conn.profile.localHttpPort = true) :
    Connection.start plat env x
      = ⟨startChecked env x.conn,
          x.trace ++ (startCheckFx plat env x.conn
            ++ [Effect.qCritical (Connection.portConflictMessage x.conn.profile),
                Effect.loggerError (Connection.portConflictMessage x.conn.profile),
                Effect.stateChanged false])⟩ := by
  by_cases hl : x.conn.profile.latency = plat.LATENCY_UNKNOWN <;>
  cases h1 : env.isInUse x.conn.profile.localPort <;>
  cases h2 : env.isInUse x.conn.profile.localHttpPort <;>
  simp_all [Connection.start, latencyTest_eq, Exec.record, startCheckFx, startPrepareFx,
    startChecked, Connection.portConflictMessage]

/-- What `start` does when both ports are free. -/
theorem start_of_free (plat : Platform) (env : Env) (x : Exec)
    (h1 : env.isInUse x.conn.profile.localPort = false)
    (h2 : env.isInUse x.conn.profile.localHttpPort = false) :
    Connection.start plat env x
      = ⟨{ startChecked env x.conn with running := true },
          x.trace ++ (startCheckFx plat env x.conn
            ++ [Effect.setRunning true, Effect.serviceStart x.conn.service]
            ++ (if x.conn.profile.dualMode then [Effect.privoxyStart env.newPrivoxyThread]
                else [])
            ++ (if (env.configHelper x.conn.configFile).enablePACMode then
                  [Effect.pacModify { x.conn.profile with lastTime := env.currentDateTime }]
                else [])
            ++ [Effect.stateChanged true]
            ++ (if (env.configHelper x.conn.configFile).autoSetSystemProxy then
                  [Effect.setSystemProxy { x.conn.profile with lastTime := env.currentDateTime }
                    (if (env.configHelper x.conn.configFile).enablePACMode then 2 else 1)]
                else []))⟩ := by
  by_cases hl : x.conn.profile.latency = plat.LATENCY_UNKNOWN <;>
  cases hd : x.conn.profile.dualMode <;>
  cases hp : (env.configHelper x.conn.configFile).enablePACMode <;>
  cases ha : (env.configHelper x.conn.configFile).autoSetSystemProxy <;>
  simp_all [Connection.start, latencyTest_eq, Exec.record, Exec.setRunning, startCheckFx,
    startPrepareFx, startChecked, ConfigHelper.isAutoSetSystemProxy,
    ConfigHelper.isEnablePACMode]

/-- Nothing `start` does up to the port check writes `running`, starts or stops a worker,
touches the PAC file, emits a signal or applies an OS proxy setting. -/
theorem startCheckFx_quiet (plat : Platform) (env : Env) (c : Connection) :
    ∀ e ∈ startCheckFx plat env c,
      e.isSetRunning = false ∧ e.isWorkerStart = false ∧ e.isWorkerStop = false
        ∧ e.isPacModify = false ∧ e.isSignal = false ∧ e.isProxyApply = false := by
  intro e he
  have hall : (startCheckFx plat env c).all (fun e =>
      !e.isSetRunning && !e.isWorkerStart && !e.isWorkerStop && !e.isPacModify
        && !e.isSignal && !e.isProxyApply) = true := by
    by_cases hl : c.profile.latency = plat.LATENCY_UNKNOWN <;>
    cases hn : (plat.hostAddress c.profile.serverAddress).isNull <;>
    cases h1 : env.isInUse c.profile.localPort <;>
    simp [startCheckFx, startPrepareFx, latencyTestFx, hl, hn, h1, Effect.isSetRunning,
      Effect.isWorkerStart,
      Effect.isWorkerStop, Effect.isPacModify, Effect.isSignal, Effect.isProxyApply]
  have hq := List.all_eq_true.mp hall e he
  simp only [Bool.and_eq_true, Bool.not_eq_true', and_assoc] at hq
  exact hq

/-- The signals among the actions of `start` up to the port check: none. -/
theorem signals_startCheckFx (plat : Platform) (env : Env) (c : Connection) :
    signals (startCheckFx plat env c) = [] := by
  unfold signals
  rw [List.filter_eq_nil_iff]
  intro e he
  simp [(startCheckFx_quiet plat env c e he).2.2.2.2.1]

/-! ## C1: port guard -/

/-- C1 (port guard): when the port validator reports the local port or the local HTTP port of
the profile in use, `start` leaves `running` as it was, starts neither worker, regenerates no
PAC file, applies no OS proxy setting, never writes `running`, and the only signal it emits is
one `stateChanged(false)`. -/
theorem start_port_guard (plat : Platform) (env : Env) (c : Connection)
    (h : env.isInUse c.profile.localPort = true ∨ env.isInUse c.profile.localHttpPort = true) :
    (Connection.start plat env ⟨c, []⟩).conn.running = c.running
    ∧ (∀ e ∈ (Connection.start plat env ⟨c, []⟩).trace,
        e.isWorkerStart = false ∧ e.isPacModify = false ∧ e.isProxyApply = false
          ∧ e.isSetRunning = false)
    ∧ signals (Connection.start plat env ⟨c, []⟩).trace = [Effect.stateChanged false] := by
  rw [start_of_conflict plat env ⟨c, []⟩ h]
  refine ⟨rfl, ?_, ?_⟩
  · intro e he
    simp only [List.nil_append, List.mem_append, List.mem_cons, List.mem_singleton,
      List.not_mem_nil, or_false] at he
    rcases he with he | he | he | he
    · have hq := startCheckFx_quiet plat env c e he
      exact ⟨hq.2.1, hq.2.2.2.1, hq.2.2.2.2.2, hq.1⟩
    · subst he; exact ⟨rfl, rfl, rfl, rfl⟩
    · subst he; exact ⟨rfl, rfl, rfl, rfl⟩
    · subst he; exact ⟨rfl, rfl, rfl, rfl⟩
  · have hs := signals_startCheckFx plat env c
    unfold signals at hs ⊢
    simp [List.filter_append, hs, Effect.isSignal]

/-- Witness for C1: the sample profile with port 1080 bound. -/
theorem start_port_guard_witness :
    (envBusy 5 7 true true [1080]).isInUse sampleConn.profile.localPort = true
    ∧ (Connection.start samplePlatform (envBusy 5 7 true true [1080]) ⟨sampleConn, []⟩).conn.running
        = false
    ∧ signals (Connection.start samplePlatform (envBusy 5 7 true true [1080])
        ⟨sampleConn, []⟩).trace = [Effect.stateChanged false] :=
  ⟨by decide,
   (start_port_guard samplePlatform (envBusy 5 7 true true [1080]) sampleConn
      (Or.inl (by decide))).1,
   (start_port_guard samplePlatform (envBusy 5 7 true true [1080]) sampleConn
      (Or.inl (by decide))).2.2⟩

/-! ## C2: successful start -/

/-- C2 (successful start): when both local ports are reported free, the trace of `start` is
some preparation `pre` (no write of `running`, no worker call, no PAC regeneration, no signal,
no OS proxy setting) followed by the two port queries and then exactly: `running = true`;
Tunnel Worker start; Local Forwarding Worker start iff dual mode; PAC regeneration iff PAC mode;
`stateChanged(true)`; OS proxy apply iff auto-set, with mode 2 under PAC mode and 1 otherwise.
`running` is true on return and `stateChanged(true)` is the only signal; with dual mode off the
Local Forwarding Worker is never started and with PAC mode off the PAC file is never
regenerated. -/
theorem start_success_sequence (plat : Platform) (env : Env) (c : Connection)
    (h1 : env.isInUse c.profile.localPort = false)
    (h2 : env.isInUse c.profile.localHttpPort = false) :
    (∃ pre : List Effect,
      (∀ e ∈ pre, e.isSetRunning = false ∧ e.isWorkerStart = false ∧ e.isWorkerStop = false
        ∧ e.isPacModify = false ∧ e.isSignal = false ∧ e.isProxyApply = false)
      ∧ (Connection.start plat env ⟨c, []⟩).trace
        = pre ++ [Effect.isInUse c.profile.localPort, Effect.isInUse c.profile.localHttpPort]
          ++ [Effect.setRunning true, Effect.serviceStart c.service]
          ++ (if c.profile.dualMode then [Effect.privoxyStart env.newPrivoxyThread] else [])
          ++ (if (env.configHelper c.configFile).isEnablePACMode then
                [Effect.pacModify { c.profile with lastTime := env.currentDateTime }]
              else [])
          ++ [Effect.stateChanged true]
          ++ (if (env.configHelper c.configFile).isAutoSetSystemProxy then
                [Effect.setSystemProxy { c.profile with lastTime := env.currentDateTime }
                  (if (env.configHelper c.configFile).isEnablePACMode then 2 else 1)]
              else []))
    ∧ (Connection.start plat env ⟨c, []⟩).conn.running = true
    ∧ (Connection.start plat env ⟨c, []⟩).conn.privoxy = env.newPrivoxyThread
    ∧ signals (Connection.start plat env ⟨c, []⟩).trace = [Effect.stateChanged true]
    ∧ (c.profile.dualMode = false →
        ∀ e ∈ (Connection.start plat env ⟨c, []⟩).trace, ∀ k, e ≠ Effect.privoxyStart k)
    ∧ ((env.configHelper c.configFile).isEnablePACMode = false →
        ∀ e ∈ (Connection.start plat env ⟨c, []⟩).trace, e.isPacModify = false) := by
  have hfx : startCheckFx plat env c
      = startPrepareFx plat env c
        ++ [Effect.isInUse c.profile.localPort, Effect.isInUse c.profile.localHttpPort] := by
    simp [startCheckFx, h1]
  have hq := startCheckFx_quiet plat env c
  have hws : ∀ e ∈ startCheckFx plat env c, e.isWorkerStart = false :=
    fun e he => (hq e he).2.1
  have hpm : ∀ e ∈ startCheckFx plat env c, e.isPacModify = false :=
    fun e he => (hq e he).2.2.2.1
  rw [start_of_free plat env ⟨c, []⟩ h1 h2]
  refine ⟨⟨startPrepareFx plat env c, ?_, ?_⟩, rfl, rfl, ?_, ?_, ?_⟩
  · intro e he
    exact hq e (by rw [hfx]; exact List.mem_append_left _ he)
  · simp only [List.nil_append]
    rw [hfx]
    simp [ConfigHelper.isEnablePACMode, ConfigHelper.isAutoSetSystemProxy]
  · have hs := signals_startCheckFx plat env c
    unfold signals at hs ⊢
    cases hd : c.profile.dualMode <;>
    cases hp : (env.configHelper c.configFile).enablePACMode <;>
    cases ha : (env.configHelper c.configFile).autoSetSystemProxy <;>
    simp [List.filter_append, hs, Effect.isSignal, hd, hp, ha]
  · intro hd e he k hk
    subst hk
    cases hp : (env.configHelper c.configFile).enablePACMode <;>
    cases ha : (env.configHelper c.configFile).autoSetSystemProxy <;>
    simp [hd, hp, ha] at he <;>
    simpa [Effect.isWorkerStart] using hws _ he
  · intro hp
    simp only [ConfigHelper.isEnablePACMode] at hp
    cases hd : c.profile.dualMode <;>
    cases ha : (env.configHelper c.configFile).autoSetSystemProxy <;>
    simp [hd, hp, ha, or_imp, forall_and, Effect.isPacModify] <;>
    exact hpm

/-- Witness for C2: the scenario of the spec (dual mode off, PAC mode off, both ports free). -/
theorem start_success_sequence_witness :
    (Connection.start samplePlatform (envFree 5 7 false true) ⟨sampleConn, []⟩).conn.running = true
    ∧ (∀ e ∈ (Connection.start samplePlatform (envFree 5 7 false true) ⟨sampleConn, []⟩).trace,
        ∀ k, e ≠ Effect.privoxyStart k)
    ∧ (∀ e ∈ (Connection.start samplePlatform (envFree 5 7 false true) ⟨sampleConn, []⟩).trace,
        e.isPacModify = false) :=
  ⟨(start_success_sequence samplePlatform (envFree 5 7 false true) sampleConn rfl rfl).2.1,
   (start_success_sequence samplePlatform (envFree 5 7 false true) sampleConn
      rfl rfl).2.2.2.2.1 rfl,
   (start_success_sequence samplePlatform (envFree 5 7 false true) sampleConn
      rfl rfl).2.2.2.2.2 rfl⟩

/-! ## C3: stop -/

/-- C3 (stop sequence): on a running connection `stop`, once it has constructed its
`ConfigHelper`, does exactly this, in this order: `running = false`; Tunnel Worker stop; Local
Forwarding Worker stop iff dual mode; `stateChanged(false)`; OS proxy apply with mode 0 iff
auto-set is enabled. No other member changes. -/
theorem stop_sequence (env : Env) (c : Connection) (h : c.running = true) :
    (Connection.stop env ⟨c, []⟩).trace
      = [Effect.newConfigHelper c.configFile]
        ++ [Effect.setRunning false, Effect.serviceStop c.service]
        ++ (if c.profile.dualMode then [Effect.privoxyStop c.privoxy] else [])
        ++ [Effect.stateChanged false]
        ++ (if (env.configHelper c.configFile).isAutoSetSystemProxy then
              [Effect.setSystemProxy c.profile 0] else [])
    ∧ (Connection.stop env ⟨c, []⟩).conn = { c with running := false } := by
  rw [stop_of_running env ⟨c, []⟩ h]
  simp [ConfigHelper.isAutoSetSystemProxy]

/-- Witness for C3: the dual-mode connection, running, with auto-set enabled. -/
theorem stop_sequence_witness :
    (Connection.stop (envFree 9 0 false true) ⟨{ dualConn with running := true }, []⟩).trace
      = [Effect.newConfigHelper dualConn.configFile, Effect.setRunning false,
          Effect.serviceStop 1, Effect.privoxyStop 0, Effect.stateChanged false,
          Effect.setSystemProxy dualProfile 0] :=
  (stop_sequence (envFree 9 0 false true) { dualConn with running := true } rfl).1

/-! ## C4: idempotent stop -/

/-- C4 (idempotent stop): on a stopped connection `stop` changes no member and does nothing but
construct its `ConfigHelper` (no worker stop, no OS proxy setting, no signal, no write of
`running`); `stop` after `stop` leaves the members and the emitted signals of the first `stop`;
and on a running connection the two calls together emit exactly one `stateChanged(false)`,
already emitted by the first. -/
theorem stop_idempotent (env1 env2 : Env) (x : Exec) :
    (x.conn.running = false →
      (Connection.stop env1 x).conn = x.conn
      ∧ (Connection.stop env1 x).trace = x.trace ++ [Effect.newConfigHelper x.conn.configFile])
    ∧ (Connection.stop env2 (Connection.stop env1 x)).conn = (Connection.stop env1 x).conn
    ∧ signals (Connection.stop env2 (Connection.stop env1 x)).trace
        = signals (Connection.stop env1 x).trace
    ∧ (x.conn.running = true →
        signals (Connection.stop env1 ⟨x.conn, []⟩).trace = [Effect.stateChanged false]
        ∧ signals (Connection.stop env2 (Connection.stop env1 ⟨x.conn, []⟩)).trace
            = [Effect.stateChanged false]) := by
  have hoff : (Connection.stop env1 x).conn.running = false := by
    cases hr : x.conn.running
    · rw [stop_of_not_running env1 x hr]; exact hr
    · rw [stop_of_running env1 x hr]
  have hoff0 : (Connection.stop env1 ⟨x.conn, []⟩).conn.running = false := by
    cases hr : x.conn.running
    · rw [stop_of_not_running env1 ⟨x.conn, []⟩ hr]; exact hr
    · rw [stop_of_running env1 ⟨x.conn, []⟩ hr]
  have hfirst : x.conn.running = true →
      signals (Connection.stop env1 ⟨x.conn, []⟩).trace = [Effect.stateChanged false] := by
    intro hr
    rw [stop_of_running env1 ⟨x.conn, []⟩ hr]
    cases hd : x.conn.profile.dualMode <;>
    cases ha : (env1.configHelper x.conn.configFile).autoSetSystemProxy <;>
    simp [signals, Effect.isSignal, hd, ha]
  refine ⟨?_, ?_, ?_, ?_⟩
  · intro hr
    rw [stop_of_not_running env1 x hr]
    exact ⟨rfl, rfl⟩
  · rw [stop_of_not_running env2 _ hoff]
  · rw [stop_of_not_running env2 _ hoff]
    simp [signals, List.filter_append, Effect.isSignal]
  · intro hr
    refine ⟨hfirst hr, ?_⟩
    rw [stop_of_not_running env2 _ hoff0]
    have h1 := hfirst hr
    unfold signals at h1 ⊢
    simp [List.filter_append, Effect.isSignal, h1]

/-- Witness for C4: a stopped and a running sample connection. -/
theorem stop_idempotent_witness :
    ((Connection.stop (envFree 1 0 false true) ⟨sampleConn, []⟩).conn = sampleConn
      ∧ (Connection.stop (envFree 1 0 false true) ⟨sampleConn, []⟩).trace
          = [Effect.newConfigHelper sampleConn.configFile])
    ∧ signals (Connection.stop (envFree 2 0 false true)
        (Connection.stop (envFree 1 0 false true) ⟨{ sampleConn with running := true }, []⟩)).trace
        = [Effect.stateChanged false] :=
  ⟨(stop_idempotent (envFree 1 0 false true) (envFree 2 0 false true) ⟨sampleConn, []⟩).1 rfl,
   ((stop_idempotent (envFree 1 0 false true) (envFree 2 0 false true)
      ⟨{ sampleConn with running := true }, []⟩).2.2.2 rfl).2⟩

/-! ## C5: start failure -/

/-- C5 (failure cleanup): from any members, `onStartFailed`, once it has constructed its
`ConfigHelper`, sets `running = false`, emits `stateChanged(false)` and then `startFailed()`,
once each, and afterwards applies OS proxy mode 0 iff auto-set is enabled; `running` is false on
return; and no `startFailed()` occurs in the trace of `start`, `stop`, `latencyTest`,
`onServerAddressLookedUp` or `onLatencyAvailable`. -/
theorem onStartFailed_cleanup (plat : Platform) (env : Env) (c : Connection) :
    (Connection.onStartFailed env ⟨c, []⟩).conn.running = false
    ∧ (Connection.onStartFailed env ⟨c, []⟩).trace
        = [Effect.newConfigHelper c.configFile, Effect.setRunning false,
            Effect.stateChanged false, Effect.startFailed]
          ++ (if (env.configHelper c.configFile).isAutoSetSystemProxy then
                [Effect.setSystemProxy c.profile 0] else [])
    ∧ signals (Connection.onStartFailed env ⟨c, []⟩).trace
        = [Effect.stateChanged false, Effect.startFailed]
    ∧ Effect.startFailed ∉ (Connection.start plat env ⟨c, []⟩).trace
    ∧ Effect.startFailed ∉ (Connection.stop env ⟨c, []⟩).trace
    ∧ Effect.startFailed ∉ (Connection.latencyTest plat ⟨c, []⟩).trace
    ∧ (∀ host y, Connection.onServerAddressLookedUp plat host ⟨c, []⟩ = some y →
        Effect.startFailed ∉ y.trace)
    ∧ (∀ latency, Effect.startFailed ∉ (Connection.onLatencyAvailable latency ⟨c, []⟩).trace) := by
  have hq : Effect.startFailed ∉ startCheckFx plat env c := by
    intro hm
    have := (startCheckFx_quiet plat env c _ hm).2.2.2.2.1
    simp [Effect.isSignal] at this
  refine ⟨?_, ?_, ?_, ?_, ?_, ?_, ?_, ?_⟩
  · rw [onStartFailed_eq]
  · rw [onStartFailed_eq]
    simp [ConfigHelper.isAutoSetSystemProxy]
  · rw [onStartFailed_eq]
    cases ha : (env.configHelper c.configFile).autoSetSystemProxy <;>
    simp [signals, Effect.isSignal, ha]
  · by_cases hb : env.isInUse c.profile.localPort = true
        ∨ env.isInUse c.profile.localHttpPort = true
    · rw [start_of_conflict plat env ⟨c, []⟩ hb]
      simp [hq]
    · simp only [not_or, Bool.not_eq_true] at hb
      rw [start_of_free plat env ⟨c, []⟩ hb.1 hb.2]
      cases hd : c.profile.dualMode <;>
      cases hp : (env.configHelper c.configFile).enablePACMode <;>
      cases ha : (env.configHelper c.configFile).autoSetSystemProxy <;>
      simp [hq, hd, hp, ha]
  · cases hr : c.running
    · rw [stop_of_not_running env ⟨c, []⟩ hr]; simp
    · rw [stop_of_running env ⟨c, []⟩ hr]
      cases hd : c.profile.dualMode <;>
      cases ha : (env.configHelper c.configFile).autoSetSystemProxy <;>
      simp [hd, ha]
  · rw [latencyTest_eq]
    cases hn : (plat.hostAddress c.profile.serverAddress).isNull <;>
    simp [latencyTestFx, hn]
  · intro host y hy
    unfold Connection.onServerAddressLookedUp at hy
    split at hy
    · split at hy
      · cases hy
        simp [Connection.testAddressLatency, Exec.record]
      · cases hy
    · cases hy
      simp [Connection.onLatencyAvailable, Exec.record]
  · intro latency
    simp [Connection.onLatencyAvailable, Exec.record]

/-- Witness for C5: a lookup that succeeds produces a trace, and it holds no `startFailed()`;
a start failure right after a successful `start` leaves `running` false. -/
theorem onStartFailed_cleanup_witness :
    Effect.startFailed ∉
      (Connection.testAddressLatency ⟨some "10.0.0.1"⟩ ⟨sampleConn, []⟩).trace
    ∧ (Connection.onStartFailed (envFree 6 0 false true)
        ⟨(Connection.start samplePlatform (envFree 5 7 false true) ⟨sampleConn, []⟩).conn,
          []⟩).conn.running = false :=
  ⟨(onStartFailed_cleanup samplePlatform (envFree 5 7 false true) sampleConn).2.2.2.2.2.2.1
      ⟨HostInfoError.NoError, [⟨some "10.0.0.1"⟩]⟩ _ rfl,
   (onStartFailed_cleanup samplePlatform (envFree 6 0 false true)
      (Connection.start samplePlatform (envFree 5 7 false true) ⟨sampleConn, []⟩).conn).1⟩

/-! ## C6: the running invariant -/

/-- An action that is no worker call leaves "the Tunnel Worker is started" as it was. -/
theorem tunnelStep_of_quiet (svc : Handle) (b : Bool) (e : Effect)
    (h1 : e.isWorkerStart = false) (h2 : e.isWorkerStop = false) : tunnelStep svc b e = b := by
  cases e <;> simp_all [tunnelStep, Effect.isWorkerStart, Effect.isWorkerStop]

/-- Actions that are no worker call leave "the Tunnel Worker is started" as it was. -/
theorem foldl_tunnelStep_of_quiet (svc : Handle) (d : List Effect) (b : Bool)
    (hd : ∀ e ∈ d, e.isWorkerStart = false ∧ e.isWorkerStop = false) :
    d.foldl (tunnelStep svc) b = b := by
  induction d generalizing b with
  | nil => rfl
  | cons e d ih =>
    have he := hd e (List.mem_cons_self e d)
    have hstep : tunnelStep svc b e = b := tunnelStep_of_quiet svc b e he.1 he.2
    rw [List.foldl_cons, hstep]
    exact ih b (fun e1 h1 => hd e1 (List.mem_cons_of_mem e h1))

/-- The Tunnel Worker state after a longer trace. -/
theorem tunnelStarted_append (svc : Handle) (t d : List Effect) :
    tunnelStarted svc (t ++ d) = d.foldl (tunnelStep svc) (tunnelStarted svc t) := by
  simp [tunnelStarted, List.foldl_append]

/-- Every call preserves the invariant. -/
theorem step_preserves_RunningInv (plat : Platform) (call : Call) (x y : Exec)
    (hstep : step plat call x = some y) (hinv : RunningInv x) : RunningInv y := by
  unfold RunningInv at hinv ⊢
  cases call with
  | start env =>
    simp only [step, Option.some.injEq] at hstep
    subst hstep
    have hq : ∀ e ∈ startCheckFx plat env x.conn,
        e.isWorkerStart = false ∧ e.isWorkerStop = false :=
      fun e he => ⟨(startCheckFx_quiet plat env x.conn e he).2.1,
        (startCheckFx_quiet plat env x.conn e he).2.2.1⟩
    by_cases hb : env.isInUse x.conn.profile.localPort = true
        ∨ env.isInUse x.conn.profile.localHttpPort = true
    · rw [start_of_conflict plat env x hb]
      intro hr
      have h0 := hinv hr
      simp only [tunnelStarted_append, List.foldl_append, startChecked]
      rw [foldl_tunnelStep_of_quiet _ _ _ hq]
      simpa [tunnelStep] using h0
    · simp only [not_or, Bool.not_eq_true] at hb
      rw [start_of_free plat env x hb.1 hb.2]
      intro _
      simp only [tunnelStarted_append, List.foldl_append, startChecked]
      rw [foldl_tunnelStep_of_quiet _ _ _ hq]
      cases hd : x.conn.profile.dualMode <;>
      cases hp : (env.configHelper x.conn.configFile).enablePACMode <;>
      cases ha : (env.configHelper x.conn.configFile).autoSetSystemProxy <;>
      simp [tunnelStep]
  | stop env =>
    simp only [step, Option.some.injEq] at hstep
    subst hstep
    cases hr : x.conn.running
    · rw [stop_of_not_running env x hr]
      intro hr1
      rw [hr] at hr1
      cases hr1
    · rw [stop_of_running env x hr]
      intro hr1
      cases hr1
  | onStartFailed env =>
    simp only [step, Option.some.injEq] at hstep
    subst hstep
    rw [onStartFailed_eq]
    intro hr1
    cases hr1
  | latencyTest =>
    simp only [step, Option.some.injEq] at hstep
    subst hstep
    rw [latencyTest_eq]
    intro hr
    have h0 := hinv hr
    simp only [tunnelStarted_append]
    cases hn : (plat.hostAddress x.conn.profile.serverAddress).isNull <;>
    simpa [latencyTestFx, hn, tunnelStep] using h0
  | onServerAddressLookedUp host =>
    simp only [step] at hstep
    unfold Connection.onServerAddressLookedUp at hstep
    split at hstep
    · split at hstep
      · cases hstep
        intro hr
        have h0 := hinv hr
        simpa [Connection.testAddressLatency, Exec.record, tunnelStarted_append, tunnelStep]
          using h0
      · cases hstep
    · cases hstep
      intro hr
      have h0 := hinv hr
      simpa [Connection.onLatencyAvailable, Exec.record, tunnelStarted_append, tunnelStep]
        using h0
  | onLatencyAvailable latency =>
    simp only [step, Option.some.injEq] at hstep
    subst hstep
    intro hr
    have h0 := hinv hr
    simpa [Connection.onLatencyAvailable, Exec.record, tunnelStarted_append, tunnelStep]
      using h0

/-- Every sequence of calls preserves the invariant. -/
theorem run_preserves_RunningInv (plat : Platform) (calls : List Call) (x y : Exec)
    (hrun : run plat calls x = some y) (hinv : RunningInv x) : RunningInv y := by
  induction calls generalizing x with
  | nil =>
    simp only [run, Option.some.injEq] at hrun
    subst hrun
    exact hinv
  | cons call calls ih =>
    simp only [run] at hrun
    cases hs : step plat call x with
    | none => rw [hs] at hrun; cases hrun
    | some z =>
      rw [hs] at hrun
      exact ih z hrun (step_preserves_RunningInv plat call x z hs hinv)

/-- C6 (running invariant): in every state reached from a connection with `running == false`
and an empty history (as every constructor leaves it) by any sequence of `start`, `stop`,
`onStartFailed`, `latencyTest`, `onServerAddressLookedUp` and `onLatencyAvailable` calls, a true
`running` means the Tunnel Worker of the connection has been started and not since stopped; and
`running` is false right after `onStartFailed`. -/
theorem running_invariant (plat : Platform) (c0 : Connection) (calls : List Call) (x : Exec)
    (h0 : c0.running = false) (hrun : run plat calls ⟨c0, []⟩ = some x) :
    (x.conn.running = true → tunnelStarted x.conn.service x.trace = true)
    ∧ ∀ env, (Connection.onStartFailed env x).conn.running = false := by
  refine ⟨?_, ?_⟩
  · apply run_preserves_RunningInv plat calls ⟨c0, []⟩ x hrun
    intro hr
    rw [h0] at hr
    cases hr
  · intro env
    rw [onStartFailed_eq]

/-- Witness for C6: after one successful `start` of a fresh connection `running` is true and
the Tunnel Worker (handle 1) is started. -/
theorem running_invariant_witness :
    sampleConn.running = false
    ∧ (Connection.start samplePlatform (envFree 5 7 false true) ⟨sampleConn, []⟩).conn.running
        = true
    ∧ tunnelStarted 1
        (Connection.start samplePlatform (envFree 5 7 false true) ⟨sampleConn, []⟩).trace = true :=
  ⟨rfl, by decide,
   (running_invariant samplePlatform sampleConn [Call.start (envFree 5 7 false true)]
      (Connection.start samplePlatform (envFree 5 7 false true) ⟨sampleConn, []⟩)
      rfl rfl).1 (by decide)⟩

/-! ## C7: what a port conflict leaves behind -/

/-- Counterexample to C7 (a port conflict mutates no state): with port 1080 bound, `start` on a
fresh connection returns with the last-used timestamp of the profile moved from 0 to the current
time 5 and with the Local Forwarding Worker handle replaced (0 before, the newly constructed 7
after), so the members differ from those at entry. -/
theorem start_port_conflict_changes_members :
    (envBusy 5 7 false false [1080]).isInUse sampleConn.profile.localPort = true
    ∧ (Connection.start samplePlatform (envBusy 5 7 false false [1080]) ⟨sampleConn, []⟩).conn
        ≠ sampleConn
    ∧ sampleConn.profile.lastTime = 0
    ∧ (Connection.start samplePlatform (envBusy 5 7 false false [1080])
        ⟨sampleConn, []⟩).conn.profile.lastTime = 5
    ∧ sampleConn.privoxy = 0
    ∧ (Connection.start samplePlatform (envBusy 5 7 false false [1080])
        ⟨sampleConn, []⟩).conn.privoxy = 7 := by
  decide

/-- C7 as amended: when a local port is reported in use, `start` returns with `running`, the
Tunnel Worker handle, the configuration path and every field of the profile other than the
last-used timestamp (the latency among them) unchanged; the timestamp is the current time. -/
theorem start_port_conflict_members (plat : Platform) (env : Env) (c : Connection)
    (h : env.isInUse c.profile.localPort = true ∨ env.isInUse c.profile.localHttpPort = true) :
    (Connection.start plat env ⟨c, []⟩).conn.running = c.running
    ∧ (Connection.start plat env ⟨c, []⟩).conn.service = c.service
    ∧ (Connection.start plat env ⟨c, []⟩).conn.configFile = c.configFile
    ∧ (Connection.start plat env ⟨c, []⟩).conn.profile
        = { c.profile with lastTime := env.currentDateTime } := by
  rw [start_of_conflict plat env ⟨c, []⟩ h]
  exact ⟨rfl, rfl, rfl, rfl⟩

/-- Witness for amended C7: the sample profile with the HTTP port 8118 bound. -/
theorem start_port_conflict_members_witness :
    (envBusy 5 7 false false [8118]).isInUse sampleConn.profile.localHttpPort = true
    ∧ (Connection.start samplePlatform (envBusy 5 7 false false [8118])
        ⟨sampleConn, []⟩).conn.profile = { sampleProfile with lastTime := 5 } :=
  ⟨by decide,
   (start_port_conflict_members samplePlatform (envBusy 5 7 false false [8118]) sampleConn
      (Or.inr (by decide))).2.2.2⟩

/-! ## C8: latency prober -/

/-- C8 (latency prober dispatch): for a literal server address `latencyTest` requests no lookup
and starts one measurement against the parsed address and the server port; otherwise it requests
one lookup and starts no measurement. `onServerAddressLookedUp` with an error starts no
measurement, stores `LATENCY_ERROR` in the profile and emits one
`latencyAvailable(LATENCY_ERROR)`; without error and with a first address it starts one
measurement against that address, emits nothing and changes no member. -/
theorem latency_dispatch (plat : Platform) (c : Connection) (host : QHostInfo) :
    ((plat.hostAddress c.profile.serverAddress).isNull = false →
      Connection.latencyTest plat ⟨c, []⟩
        = ⟨c, [Effect.startLagTest (plat.hostAddress c.profile.serverAddress)
                c.profile.serverPort]⟩)
    ∧ ((plat.hostAddress c.profile.serverAddress).isNull = true →
      Connection.latencyTest plat ⟨c, []⟩ = ⟨c, [Effect.lookupHost c.profile.serverAddress]⟩)
    ∧ (host.error ≠ HostInfoError.NoError →
      Connection.onServerAddressLookedUp plat host ⟨c, []⟩
        = some ⟨{ c with profile := { c.profile with latency := plat.LATENCY_ERROR } },
                [Effect.latencyAvailable plat.LATENCY_ERROR]⟩)
    ∧ (∀ a rest, host.error = HostInfoError.NoError → host.addresses = a :: rest →
      Connection.onServerAddressLookedUp plat host ⟨c, []⟩
        = some ⟨c, [Effect.startLagTest a c.profile.serverPort]⟩) := by
  refine ⟨?_, ?_, ?_, ?_⟩
  · intro hn
    simp [Connection.latencyTest, Connection.testAddressLatency, Exec.record, hn]
  · intro hn
    simp [Connection.latencyTest, Exec.record, hn]
  · intro he
    simp [Connection.onServerAddressLookedUp, Connection.onLatencyAvailable, Exec.record, he]
  · intro a rest he ha
    simp [Connection.onServerAddressLookedUp, Connection.testAddressLatency, Exec.record, he, ha]

/-- Witness for C8: the literal address 10.0.0.1, the name example.invalid, a failed lookup and
a lookup returning two addresses. -/
theorem latency_dispatch_witness :
    Connection.latencyTest samplePlatform ⟨sampleConn, []⟩
      = ⟨sampleConn, [Effect.startLagTest ⟨some "10.0.0.1"⟩ 443]⟩
    ∧ Connection.latencyTest samplePlatform
        ⟨{ sampleConn with profile := { sampleProfile with serverAddress := "example.invalid" } },
          []⟩
      = ⟨{ sampleConn with profile := { sampleProfile with serverAddress := "example.invalid" } },
          [Effect.lookupHost "example.invalid"]⟩
    ∧ Connection.onServerAddressLookedUp samplePlatform ⟨HostInfoError.HostNotFound, []⟩
        ⟨sampleConn, []⟩
      = some ⟨{ sampleConn with profile := { sampleProfile with latency := -2 } },
              [Effect.latencyAvailable (-2)]⟩
    ∧ Connection.onServerAddressLookedUp samplePlatform
        ⟨HostInfoError.NoError, [⟨some "192.0.2.7"⟩, ⟨some "192.0.2.8"⟩]⟩ ⟨sampleConn, []⟩
      = some ⟨sampleConn, [Effect.startLagTest ⟨some "192.0.2.7"⟩ 443]⟩ :=
  ⟨(latency_dispatch samplePlatform sampleConn ⟨HostInfoError.HostNotFound, []⟩).1 (by decide),
   (latency_dispatch samplePlatform
      { sampleConn with profile := { sampleProfile with serverAddress := "example.invalid" } }
      ⟨HostInfoError.HostNotFound, []⟩).2.1 (by decide),
   (latency_dispatch samplePlatform sampleConn ⟨HostInfoError.HostNotFound, []⟩).2.2.1
      (by decide),
   (latency_dispatch samplePlatform sampleConn
      ⟨HostInfoError.NoError, [⟨some "192.0.2.7"⟩, ⟨some "192.0.2.8"⟩]⟩).2.2.2
      ⟨some "192.0.2.7"⟩ [⟨some "192.0.2.8"⟩] rfl rfl⟩

/-! ## C9: validity -/

/-- C9 (validity check): `isValid` is true exactly when the server address, the password and the
local address of the profile are all non-empty; two connections that agree on these three
strings get the same answer, whatever their other members. -/
theorem isValid_iff (c d : Connection) :
    (Connection.isValid c = true ↔
      c.profile.serverAddress ≠ "" ∧ c.profile.password ≠ "" ∧ c.profile.localAddress ≠ "")
    ∧ (d.profile.serverAddress = c.profile.serverAddress →
        d.profile.password = c.profile.password →
        d.profile.localAddress = c.profile.localAddress →
        Connection.isValid d = Connection.isValid c) := by
  refine ⟨?_, ?_⟩
  · have h1 := String.isEmpty_iff c.profile.serverAddress
    have h2 := String.isEmpty_iff c.profile.password
    have h3 := String.isEmpty_iff c.profile.localAddress
    cases hs : c.profile.serverAddress.isEmpty <;>
    cases hp : c.profile.password.isEmpty <;>
    cases hl : c.profile.localAddress.isEmpty <;>
    simp_all [Connection.isValid]
  · intro hs hp hl
    simp only [Connection.isValid, hs, hp, hl]

/-- Witness for C9: the sample connection is valid, and stays so with another name, another
port and `running` set. -/
theorem isValid_iff_witness :
    Connection.isValid sampleConn = true
    ∧ Connection.isValid
        { sampleConn with
            running := true,
            profile := { sampleProfile with name := "other", localPort := 1081 } }
        = Connection.isValid sampleConn :=
  ⟨(isValid_iff sampleConn sampleConn).1.mpr ⟨by decide, by decide, by decide⟩,
   (isValid_iff sampleConn
      { sampleConn with
          running := true,
          profile := { sampleProfile with name := "other", localPort := 1081 } }).2
      rfl rfl rfl⟩

/-! ## C10: which Local Forwarding Worker `stop` reaches -/

/-- C10 (stop reaches the worker that was started) evaluated on a dual-mode profile: a
successful `start` (worker 7 constructed and started), a second `start` that finds ports 1080
and 8118 bound (worker 8 constructed, never started, stored in `privoxy`), then `stop`. The
connection ends stopped, `stop` has called `stop()` on worker 8, nothing ever stops worker 7,
and worker 7 is still started. -/
theorem stop_misses_started_privoxy :
    ∃ x, run samplePlatform staleCalls ⟨dualConn, []⟩ = some x
      ∧ x.conn.running = false
      ∧ Effect.privoxyStart 7 ∈ x.trace
      ∧ Effect.privoxyStop 7 ∉ x.trace
      ∧ Effect.privoxyStart 8 ∉ x.trace
      ∧ Effect.privoxyStop 8 ∈ x.trace
      ∧ privoxyStarted x.trace = [7] :=
  ⟨_, rfl, by decide⟩

end TrojanQt5
